import Mathlib

/-!
Shallow embedding of the Nutrition Computation & Substitution Engine of the
nutritionist-assistant repository.

Numbers: JavaScript numbers are embedded as `ℚ` (exact rationals).  Floating
point rounding is outside the embedding; the spec states its numeric
properties "within floating-point tolerance", which the rational embedding
realises exactly.  JavaScript division by zero yields Infinity/NaN; in `ℚ`
division by zero yields 0.  No claim settled here hinges on that corner.

Strings: JavaScript strings are embedded as Lean `String`;
`String.toLowerCase` is embedded as an ASCII character-wise lowering
(`strLower`), and `String.prototype.includes` as a substring test on the
character list (`strIncludes`).

Fallible code (`throw` in TypeScript) is embedded as `Except String`;
`async` functions are pure functions of their inputs (the external services a
method consults are passed in as explicit state).
-/

namespace NutritionApp

/-- Mirrors `MacroProfile` of `types.ts`: calories/protein/carbs/fat with
optional fiber and sugar fields. -/
structure MacroProfile where
  caloriesKcal : ℚ
  proteinG : ℚ
  carbsG : ℚ
  fatG : ℚ
  fiberG : Option ℚ := none
  sugarG : Option ℚ := none
deriving DecidableEq, Repr, Inhabited

/-- Mirrors `FoodPortion` of `types.ts`: a quantity and a free-form unit
string such as g, ml, cup, tbsp, tsp, piece. -/
structure FoodPortion where
  quantity : ℚ
  unit : String
deriving DecidableEq, Repr, Inhabited

/-- Mirrors the `source` union of `FoodItem.metadata` in `types.ts`. -/
inductive FoodSource where
  | local
  | open_food_facts
  | usda_fdc
  | user_contributed
deriving DecidableEq, Repr, Inhabited

/-- Mirrors `FoodItem.metadata` of `types.ts` (the fields the engine reads). -/
structure FoodMetadata where
  source : FoodSource
  barcode : Option String := none
  brand : Option String := none
  categories : Option (List String) := none
  confidence : Option ℚ := none
deriving DecidableEq, Repr, Inhabited

/-- Mirrors `FoodItem` of `types.ts`. -/
structure FoodItem where
  id : String
  name : String
  basePortion : FoodPortion
  macrosPerBase : MacroProfile
  densityGPerMl : Option ℚ := none
  metadata : Option FoodMetadata := none
deriving DecidableEq, Repr, Inhabited

/-- Mirrors `MealItemInput` of `types.ts`. -/
structure MealItemInput where
  foodId : String
  portion : FoodPortion
deriving DecidableEq, Repr, Inhabited

/-! ## Unit conversion (`units.ts`) -/

/-- The `MASS_TO_GRAMS` table of `units.ts`; `none` plays the role of a
missing record key. -/
def MASS_TO_GRAMS (unit : String) : Option ℚ :=
  match unit with
  | "g" => some 1
  | "kg" => some 1000
  | "mg" => some (1/1000)
  | "lb" => some (45359237/100000)
  | "oz" => some (28349523125/1000000000)
  | _ => none

/-- The `VOLUME_TO_ML` table of `units.ts`. -/
def VOLUME_TO_ML (unit : String) : Option ℚ :=
  match unit with
  | "ml" => some 1
  | "l" => some 1000
  | "tsp" => some (492892/100000)
  | "tbsp" => some (147868/10000)
  | "cup" => some 240
  | _ => none

/-- Mirrors `isMassUnit` of `units.ts` (`unit in MASS_TO_GRAMS`). -/
def isMassUnit (unit : String) : Bool := (MASS_TO_GRAMS unit).isSome

/-- Mirrors `isVolumeUnit` of `units.ts`. -/
def isVolumeUnit (unit : String) : Bool := (VOLUME_TO_ML unit).isSome

/-- Mirrors `toGrams` of `units.ts`: scale by the per-unit factor, throwing
on a non-mass unit. -/
def toGrams (quantity : ℚ) (unit : String) : Except String ℚ :=
  match MASS_TO_GRAMS unit with
  | none => .error ("Unit " ++ unit ++ " is not a mass unit")
  | some factor => .ok (quantity * factor)

/-- Mirrors `toMilliliters` of `units.ts`. -/
def toMilliliters (quantity : ℚ) (unit : String) : Except String ℚ :=
  match VOLUME_TO_ML unit with
  | none => .error ("Unit " ++ unit ++ " is not a volume unit")
  | some factor => .ok (quantity * factor)

/-- Mirrors `portionToGrams` of `units.ts`: mass units convert directly,
volume units need a density, `piece` always throws, anything else throws
`Unsupported unit`. -/
def portionToGrams (quantity : ℚ) (unit : String) (densityGPerMl : Option ℚ) :
    Except String ℚ :=
  if isMassUnit unit then toGrams quantity unit
  else if isVolumeUnit unit then
    match densityGPerMl with
    | none => .error "Density required to convert volume to grams"
    | some d =>
        match toMilliliters quantity unit with
        | .error e => .error e
        | .ok ml => .ok (ml * d)
  else if unit = "piece" then
    .error "piece requires a per-piece gram equivalence provided elsewhere"
  else .error ("Unsupported unit: " ++ unit)

/-! ## Macro engine (`macroEngine.ts`) -/

/-- State of a `MacroEngine` instance: the `foodIndex` map (as the list the
constructor builds it from), the optional `pieceToGramMap` option, and the
hybrid-service fallback of `getFood` abstracted as a function (a thrown
hybrid-service error is caught by `getFood` and surfaces as `none`, so
`Option` covers every behaviour of the service). -/
structure MacroEngineState where
  foods : List FoodItem
  pieceToGramMap : Option (List (String × ℚ)) := none
  hybrid : String → Option FoodItem := fun _ => none

/-- Lookup in the `foodIndex` `Map`.  `new Map(foods.map(f => [f.id, f]))`
lets a later duplicate id overwrite an earlier one, which the `foldl`
reproduces. -/
def mapFind (foods : List FoodItem) (foodId : String) : Option FoodItem :=
  foods.foldl (fun acc f => if f.id = foodId then some f else acc) none

/-- Record lookup in the piece map (`pieceToGramMap?.[food.id]`). -/
def assocFind (m : List (String × ℚ)) (key : String) : Option ℚ :=
  match m.find? (fun kv => kv.1 == key) with
  | some kv => some kv.2
  | none => none

/-- Mirrors `MacroEngine.getFood`: local index first, then the hybrid
service. -/
def getFood (st : MacroEngineState) (foodId : String) : Option FoodItem :=
  match mapFind st.foods foodId with
  | some f => some f
  | none => st.hybrid foodId

/-- Mirrors `MacroEngine.resolvePortionGrams`: `piece` uses the per-food
piece map and throws when absent; mass/volume units go through
`portionToGrams`; anything else throws. -/
def resolvePortionGrams (st : MacroEngineState) (food : FoodItem)
    (portion : FoodPortion) : Except String ℚ :=
  if portion.unit = "piece" then
    match st.pieceToGramMap.bind (fun m => assocFind m food.id) with
    | none => .error ("Missing grams per piece for food " ++ food.id)
    | some gramsPerPiece => .ok (portion.quantity * gramsPerPiece)
  else if isMassUnit portion.unit || isVolumeUnit portion.unit then
    portionToGrams portion.quantity portion.unit food.densityGPerMl
  else .error ("Unsupported unit: " ++ portion.unit)

/-- The all-zero profile `computeItemMacros` returns for an unknown food. -/
def zeroMacros : MacroProfile :=
  { caloriesKcal := 0, proteinG := 0, carbsG := 0, fatG := 0,
    fiberG := some 0, sugarG := some 0 }

/-- The per-field scaling of `macrosPerBase` by `ratio` inside
`computeItemMacros` (optional fields scale only when present). -/
def scaleMacros (m : MacroProfile) (ratio : ℚ) : MacroProfile :=
  { caloriesKcal := m.caloriesKcal * ratio,
    proteinG := m.proteinG * ratio,
    carbsG := m.carbsG * ratio,
    fatG := m.fatG * ratio,
    fiberG := m.fiberG.map (fun f => f * ratio),
    sugarG := m.sugarG.map (fun s => s * ratio) }

/-- Mirrors `MacroEngine.computeItemMacros`: an unresolvable food yields the
all-zero profile (never throws); a resolved food converts the portion and
the base portion to grams (either conversion may throw) and scales
`macrosPerBase` by their ratio. -/
def computeItemMacros (st : MacroEngineState) (foodId : String)
    (portion : FoodPortion) : Except String MacroProfile :=
  match getFood st foodId with
  | none => .ok zeroMacros
  | some food =>
      match resolvePortionGrams st food portion with
      | .error e => .error e
      | .ok grams =>
          match resolvePortionGrams st food food.basePortion with
          | .error e => .error e
          | .ok baseGrams => .ok (scaleMacros food.macrosPerBase (grams / baseGrams))

/-- `Promise.all` over a list of fallible computations: fails iff any
element fails (modelled in list order). -/
def mapME {α β : Type} (f : α → Except String β) : List α → Except String (List β)
  | [] => .ok []
  | x :: xs =>
      match f x with
      | .error e => .error e
      | .ok y =>
          match mapME f xs with
          | .error e => .error e
          | .ok ys => .ok (y :: ys)

/-- The reducer of `computeMealMacros`/`computeDayMacros`: field-wise sum,
with absent fiber/sugar read as 0 (`?? 0`) and always present in the
output. -/
def addAcc (acc m : MacroProfile) : MacroProfile :=
  { caloriesKcal := acc.caloriesKcal + m.caloriesKcal,
    proteinG := acc.proteinG + m.proteinG,
    carbsG := acc.carbsG + m.carbsG,
    fatG := acc.fatG + m.fatG,
    fiberG := some (acc.fiberG.getD 0 + m.fiberG.getD 0),
    sugarG := some (acc.sugarG.getD 0 + m.sugarG.getD 0) }

/-- Mirrors `MacroEngine.computeMealMacros`: per-item macros via
`Promise.all`, then a fold of the field-wise sum from the all-zero
accumulator. -/
def computeMealMacros (st : MacroEngineState) (items : List MealItemInput) :
    Except String MacroProfile :=
  (mapME (fun item => computeItemMacros st item.foodId item.portion) items).map
    (fun macros => macros.foldl addAcc zeroMacros)

/-- Result shape of `computeDayMacros`. -/
structure DayMacros where
  total : MacroProfile
  perMeal : List MacroProfile
deriving DecidableEq, Repr, Inhabited

/-- Mirrors `MacroEngine.computeDayMacros`: per-meal totals via
`Promise.all`, then the field-wise sum of the per-meal profiles. -/
def computeDayMacros (st : MacroEngineState) (meals : List (List MealItemInput)) :
    Except String DayMacros :=
  (mapME (computeMealMacros st) meals).map
    (fun perMeal => { total := perMeal.foldl addAcc zeroMacros, perMeal := perMeal })

/-! ## JavaScript helpers -/

/-- Truthiness of a JavaScript number (`0` is falsy). -/
def jsTruthyNum (q : ℚ) : Bool := decide (q ≠ 0)

/-- Truthiness of a possibly-undefined JavaScript number (`undefined` and
`0` are falsy). -/
def jsTruthyOptNum (x : Option ℚ) : Bool :=
  match x with
  | none => false
  | some v => decide (v ≠ 0)

/-- The `x || d` idiom on a possibly-undefined number: falsy (absent or 0)
falls through to the default. -/
def jsOrNum (x : Option ℚ) (d : ℚ) : ℚ :=
  match x with
  | none => d
  | some v => if v = 0 then d else v

/-- ASCII `String.toLowerCase`. -/
def strLower (s : String) : String := String.mk (s.data.map Char.toLower)

/-- `String.prototype.includes`: substring occurrence test. -/
def strIncludes (s pat : String) : Bool :=
  s.data.tails.any (fun t => pat.data.isPrefixOf t)

/-! ## Substitution engine types (`types.ts`) -/

/-- Mirrors `UserPreferences` of `types.ts` (the fields the engine reads). -/
structure UserPreferences where
  allergies : Option (List String) := none
  dislikes : Option (List String) := none
  cuisine : Option (List String) := none
deriving DecidableEq, Repr, Inhabited

/-- Mirrors `SubstitutionConstraints` of `types.ts`: every field optional. -/
structure SubstitutionConstraints where
  macroTolerancePercent : Option ℚ := none
  maxSuggestions : Option Nat := none
  minConfidence : Option ℚ := none
  preferences : Option UserPreferences := none
  includeExternalSources : Option Bool := none
deriving DecidableEq, Repr, Inhabited

/-- The effective constraints built at the top of `findSubstitutions` by
spreading the caller constraints over the defaults 5 / 10 / 0.7 / true. -/
structure EffectiveConstraints where
  macroTolerancePercent : ℚ
  maxSuggestions : Nat
  minConfidence : ℚ
  preferences : Option UserPreferences
  includeExternalSources : Bool
deriving DecidableEq, Repr, Inhabited

/-- The default application at the top of `findSubstitutions`. -/
def applyDefaults (c : SubstitutionConstraints) : EffectiveConstraints :=
  { macroTolerancePercent := c.macroTolerancePercent.getD 5,
    maxSuggestions := c.maxSuggestions.getD 10,
    minConfidence := c.minConfidence.getD (7/10),
    preferences := c.preferences,
    includeExternalSources := c.includeExternalSources.getD true }

/-- Mirrors `MacroDistance` of `types.ts`. -/
structure MacroDistance where
  caloriesPercent : ℚ
  proteinPercent : ℚ
  carbsPercent : ℚ
  fatPercent : ℚ
  fiberPercent : Option ℚ := none
  sugarPercent : Option ℚ := none
  overallScore : ℚ
deriving DecidableEq, Repr, Inhabited

/-- Mirrors `SubstitutionScore` of `types.ts`. -/
structure SubstitutionScore where
  macroScore : ℚ
  preferenceScore : ℚ
  availabilityScore : ℚ
  costScore : ℚ
  totalScore : ℚ
  macroDistance : MacroDistance
deriving DecidableEq, Repr, Inhabited

/-- Mirrors `SubstitutionCandidate` of `types.ts`. -/
structure SubstitutionCandidate where
  food : FoodItem
  suggestedPortion : FoodPortion
  score : SubstitutionScore
  macros : MacroProfile
  reason : String
deriving DecidableEq, Repr, Inhabited

/-- Mirrors `SubstitutionResult` of `types.ts`.  `processingTimeMs` is wall
clock time and is not embedded. -/
structure SubstitutionResult where
  originalFood : FoodItem
  originalPortion : FoodPortion
  originalMacros : MacroProfile
  candidates : List SubstitutionCandidate
  hasViableSubstitutions : Bool
  totalCandidatesEvaluated : Nat
  constraintsApplied : EffectiveConstraints
deriving DecidableEq, Repr, Inhabited

/-! ## Substitution engine (`substitutionEngine.ts`) -/

/-- The confidence value attached to a food record, if any. -/
def confOf (food : FoodItem) : Option ℚ := food.metadata.bind (fun m => m.confidence)

/-- Mirrors `SubstitutionEngine.respectsPreferences`: a food is rejected
when its lower-cased name contains a lower-cased declared allergen or
dislike as a substring. -/
def respectsPreferences (food : FoodItem) (preferences : UserPreferences) : Bool :=
  let nameLower := strLower food.name
  let allergyOk :=
    match preferences.allergies with
    | none => true
    | some allergens => allergens.all (fun a => ! strIncludes nameLower (strLower a))
  let dislikeOk :=
    match preferences.dislikes with
    | none => true
    | some dislikes => dislikes.all (fun d => ! strIncludes nameLower (strLower d))
  allergyOk && dislikeOk

/-- Mirrors `SubstitutionEngine.passesBasicFilters`.  The confidence gate
runs only when `constraints.minConfidence && candidate.metadata?.confidence`
is truthy, i.e. when both numbers are present and nonzero. -/
def passesBasicFilters (candidate : FoodItem) (constraints : EffectiveConstraints) : Bool :=
  let confOk :=
    if jsTruthyNum constraints.minConfidence && jsTruthyOptNum (confOf candidate) then
      ! decide ((confOf candidate).getD 0 < constraints.minConfidence)
    else true
  let prefOk :=
    match constraints.preferences with
    | none => true
    | some p => respectsPreferences candidate p
  confOk && prefOk

/-- Mirrors `SubstitutionEngine.calculatePercentDifference`. -/
def calculatePercentDifference (original candidate : ℚ) : ℚ :=
  if original = 0 then (if candidate = 0 then 0 else 100)
  else |(candidate - original) / original| * 100

/-- Mirrors `SubstitutionEngine.calculateMacroDistance`: the four percent
differences, optional fiber/sugar percentages (computed only when both
sides carry a truthy value), and their arithmetic mean as `overallScore`. -/
def calculateMacroDistance (original candidate : MacroProfile) : MacroDistance :=
  let caloriesPercent := calculatePercentDifference original.caloriesKcal candidate.caloriesKcal
  let proteinPercent := calculatePercentDifference original.proteinG candidate.proteinG
  let carbsPercent := calculatePercentDifference original.carbsG candidate.carbsG
  let fatPercent := calculatePercentDifference original.fatG candidate.fatG
  { caloriesPercent := caloriesPercent,
    proteinPercent := proteinPercent,
    carbsPercent := carbsPercent,
    fatPercent := fatPercent,
    fiberPercent :=
      if jsTruthyOptNum original.fiberG && jsTruthyOptNum candidate.fiberG then
        some (calculatePercentDifference (original.fiberG.getD 0) (candidate.fiberG.getD 0))
      else none,
    sugarPercent :=
      if jsTruthyOptNum original.sugarG && jsTruthyOptNum candidate.sugarG then
        some (calculatePercentDifference (original.sugarG.getD 0) (candidate.sugarG.getD 0))
      else none,
    overallScore := (caloriesPercent + proteinPercent + carbsPercent + fatPercent) / 4 }

/-- `Math.round(q * 10) / 10` (round to one decimal place); `Math.round`
rounds half toward positive infinity, which is `round` on `ℚ`. -/
def roundTo1 (q : ℚ) : ℚ := ((round (q * 10) : ℤ) : ℚ) / 10

/-- Mirrors `SubstitutionEngine.calculateOptimalPortion`: compute the
candidate macros for a 100 g reference portion; on zero calories return the
reference portion unchanged, otherwise scale 100 g by the calorie ratio,
clamp below at 1 and round to one decimal place. -/
def calculateOptimalPortion (st : MacroEngineState) (food : FoodItem)
    (targetMacros : MacroProfile) : Except String FoodPortion :=
  let basePortion : FoodPortion := { quantity := 100, unit := "g" }
  match computeItemMacros st food.id basePortion with
  | .error e => .error e
  | .ok baseMacros =>
      if baseMacros.caloriesKcal = 0 then .ok basePortion
      else
        let calorieRatio := targetMacros.caloriesKcal / baseMacros.caloriesKcal
        let scaledQuantity := max 1 (basePortion.quantity * calorieRatio)
        .ok { quantity := roundTo1 scaledQuantity, unit := basePortion.unit }

/-- Mirrors `SubstitutionEngine.calculatePreferenceScore`: 80 baseline, +20
when a preferred cuisine occurs as a substring of a category tag, capped at
100. -/
def calculatePreferenceScore (food : FoodItem) (preferences : Option UserPreferences) : ℚ :=
  match preferences with
  | none => 80
  | some p =>
      let bonus : ℚ :=
        match p.cuisine, food.metadata.bind (fun m => m.categories) with
        | some cuisines, some cats =>
            if cuisines.any (fun cu => cats.any (fun cat => strIncludes cat (strLower cu)))
            then 20 else 0
        | _, _ => 0
      min 100 (80 + bonus)

/-- Mirrors `SubstitutionEngine.getSourceQualityScore` (the `default` branch
serves an absent source). -/
def getSourceQualityScore (source : Option FoodSource) : ℚ :=
  match source with
  | some .usda_fdc => 95
  | some .local => 90
  | some .open_food_facts => 75
  | some .user_contributed => 60
  | none => 70

/-- Mirrors `SubstitutionEngine.calculateAvailabilityScore`:
`confidence || 0.7` blended with the per-source quality table, capped at
100. -/
def calculateAvailabilityScore (food : FoodItem) : ℚ :=
  let confidence := jsOrNum (confOf food) (7/10)
  let sourceQuality := getSourceQualityScore (food.metadata.map (fun m => m.source))
  min 100 ((confidence * 100 + sourceQuality) / 2)

/-- Mirrors `SubstitutionEngine.calculateCostScore`: 85 when the name
contains an inexpensive staple, else 70. -/
def calculateCostScore (food : FoodItem) : ℚ :=
  let basicFoods := ["rice", "beans", "pasta", "bread", "oats", "potatoes"]
  if basicFoods.any (fun basic => strIncludes (strLower food.name) basic) then 85 else 70

/-- Mirrors `SubstitutionEngine.calculateScore`: the four component scores
combined with weights 0.5 / 0.2 / 0.2 / 0.1 (no further scaling). -/
def calculateScore (_origFood candFood : FoodItem) (macroDistance : MacroDistance)
    (preferences : Option UserPreferences) : SubstitutionScore :=
  let macroScore := max 0 (100 - macroDistance.overallScore * 2)
  let preferenceScore := calculatePreferenceScore candFood preferences
  let availabilityScore := calculateAvailabilityScore candFood
  let costScore := calculateCostScore candFood
  { macroScore := macroScore,
    preferenceScore := preferenceScore,
    availabilityScore := availabilityScore,
    costScore := costScore,
    totalScore := macroScore * (1/2) + preferenceScore * (1/5)
      + availabilityScore * (1/5) + costScore * (1/10),
    macroDistance := macroDistance }

/-- Mirrors `SubstitutionEngine.generateSubstitutionReason`. -/
def generateSubstitutionReason (original candidate : FoodItem)
    (macroDistance : MacroDistance) : String :=
  let distanceDescription :=
    if macroDistance.overallScore < 2 then "very similar macros"
    else if macroDistance.overallScore < 5 then "similar macros"
    else "acceptable macro profile"
  let sourceDescription :=
    match candidate.metadata.map (fun m => m.source) with
    | some .usda_fdc => " (USDA verified)"
    | some .local => " (curated database)"
    | _ => ""
  candidate.name ++ " provides " ++ distanceDescription ++ " to "
    ++ original.name ++ sourceDescription

/-- The body of the `try` block of `evaluateCandidates` for one candidate:
portion optimisation, candidate macros, the tolerance gate, scoring and
reason.  `none` covers both a caught per-candidate error and a tolerance
rejection. -/
def evalOne (st : MacroEngineState) (origFood : FoodItem) (origMacros : MacroProfile)
    (constraints : EffectiveConstraints) (candidate : FoodItem) :
    Option SubstitutionCandidate :=
  match calculateOptimalPortion st candidate origMacros with
  | .error _ => none
  | .ok suggestedPortion =>
      match computeItemMacros st candidate.id suggestedPortion with
      | .error _ => none
      | .ok candidateMacros =>
          let macroDistance := calculateMacroDistance origMacros candidateMacros
          if macroDistance.overallScore > constraints.macroTolerancePercent then none
          else some
            { food := candidate,
              suggestedPortion := suggestedPortion,
              score := calculateScore origFood candidate macroDistance constraints.preferences,
              macros := candidateMacros,
              reason := generateSubstitutionReason origFood candidate macroDistance }

/-- Mirrors `SubstitutionEngine.evaluateCandidates`: skip the original food
itself, apply the basic filters, then evaluate each survivor, skipping any
candidate whose evaluation throws or misses the tolerance. -/
def evaluateCandidates (st : MacroEngineState) (origFood : FoodItem)
    (origMacros : MacroProfile) (constraints : EffectiveConstraints) :
    List FoodItem → List SubstitutionCandidate
  | [] => []
  | candidate :: rest =>
      let tail := evaluateCandidates st origFood origMacros constraints rest
      if candidate.id = origFood.id then tail
      else if ! passesBasicFilters candidate constraints then tail
      else
        match evalOne st origFood origMacros constraints candidate with
        | none => tail
        | some sc => sc :: tail

/-- One entry of a parsed LLM ranking response. -/
structure LLMRanking where
  originalIndex : Int
  reasoning : Option String := none
deriving DecidableEq, Repr

/-- The in-place score boost and reason update `applyLLMRanking` performs on
one candidate (an empty reasoning string is falsy and appends nothing). -/
def boostCand (boost : ℚ) (reasoning : Option String) (c : SubstitutionCandidate) :
    SubstitutionCandidate :=
  { c with
    score := { c.score with totalScore := c.score.totalScore + boost },
    reason :=
      match reasoning with
      | some r => if r = "" then c.reason else c.reason ++ ". LLM insight: " ++ r
      | none => c.reason }

/-- Replace the element at an index by its image under `f` (out-of-range
indices leave the list unchanged; callers guard the range anyway). -/
def modifyAt {α : Type} : List α → Nat → (α → α) → List α
  | [], _, _ => []
  | x :: xs, 0, f => f x :: xs
  | x :: xs, n+1, f => x :: modifyAt xs n f

/-- Mirrors `SubstitutionEngine.applyLLMRanking` for an array-shaped
response: each ranking entry with an in-range `originalIndex` boosts that
candidate by 5 points per position from the end and appends its
reasoning. -/
def applyLLMRanking (candidates : List SubstitutionCandidate)
    (rankings : List LLMRanking) : List SubstitutionCandidate :=
  rankings.enum.foldl
    (fun acc pair =>
      let index := pair.1
      let ranking := pair.2
      if 0 ≤ ranking.originalIndex ∧ ranking.originalIndex < (acc.length : Int) then
        modifyAt acc ranking.originalIndex.toNat
          (boostCand (((rankings.length : ℚ) - (index : ℚ)) * 5) ranking.reasoning)
      else acc)
    candidates

/-- Stable insertion for the descending sort by `totalScore`. -/
def insertDesc (x : SubstitutionCandidate) :
    List SubstitutionCandidate → List SubstitutionCandidate
  | [] => [x]
  | y :: ys =>
      if x.score.totalScore > y.score.totalScore then x :: y :: ys
      else y :: insertDesc x ys

/-- The stable descending sort `candidates.sort((a, b) => b.totalScore -
a.totalScore)`. -/
def sortByScoreDesc (l : List SubstitutionCandidate) : List SubstitutionCandidate :=
  l.foldr insertDesc []

/-- State of a `SubstitutionEngine` instance: its `MacroEngine` and the food
set its hybrid service returns from `getAllFoods` (abstracted as a list, so
every theorem below holds for every food universe). -/
structure SubEngineState where
  engine : MacroEngineState
  allFoods : List FoodItem

/-- Mirrors `SubstitutionEngine.findSubstitutions`.  `llmRankings = some rs`
stands for an enabled LLM ranking step whose call succeeded and parsed to
`rs`; `none` covers a disabled, failed or malformed ranking step, which the
engine ignores.  `processingTimeMs` is not embedded. -/
def findSubstitutions (st : SubEngineState) (originalFoodId : String)
    (originalPortion : FoodPortion) (constraints : SubstitutionConstraints)
    (llmRankings : Option (List LLMRanking)) : Except String SubstitutionResult :=
  let effectiveConstraints := applyDefaults constraints
  match getFood st.engine originalFoodId with
  | none => .error ("Food not found: " ++ originalFoodId)
  | some originalFood =>
      match computeItemMacros st.engine originalFoodId originalPortion with
      | .error e => .error e
      | .ok originalMacros =>
          let allFoods := st.allFoods
          let evaluated :=
            evaluateCandidates st.engine originalFood originalMacros effectiveConstraints allFoods
          let ranked :=
            match llmRankings with
            | none => evaluated
            | some rankings =>
                if evaluated.length > 0 then applyLLMRanking evaluated rankings else evaluated
          let limited := (sortByScoreDesc ranked).take effectiveConstraints.maxSuggestions
          .ok
            { originalFood := originalFood,
              originalPortion := originalPortion,
              originalMacros := originalMacros,
              candidates := limited,
              hasViableSubstitutions := decide (limited.length > 0),
              totalCandidatesEvaluated := allFoods.length,
              constraintsApplied := effectiveConstraints }

/-! ## Open Food Facts client (`openFoodFactsClient.ts`) and the hybrid
barcode lookup (`hybridFoodService.ts`) -/

/-- The nutriments block of an Open Food Facts product (all fields may be
absent); `energyKcal_100g` embeds the `energy-kcal_100g` field. -/
structure OFFNutriments where
  energy_100g : Option ℚ := none
  proteins_100g : Option ℚ := none
  carbohydrates_100g : Option ℚ := none
  fat_100g : Option ℚ := none
  fiber_100g : Option ℚ := none
  sugars_100g : Option ℚ := none
  energyKcal_100g : Option ℚ := none
deriving DecidableEq, Repr

/-- Mirrors `OpenFoodFactsProduct` (the fields the client reads). -/
structure OFFProduct where
  code : String
  product_name : String
  brands : Option String := none
  nutriments : OFFNutriments
  categories_tags : Option (List String) := none
deriving DecidableEq, Repr

/-- Mirrors `OpenFoodFactsClient.isValidProduct`: a nonempty name, a
positive calorie field and at least one nonnegative macro field. -/
def isValidProduct (p : OFFProduct) : Bool :=
  if p.product_name = "" then false
  else
    let n := p.nutriments
    let hasCalories :=
      (match n.energy_100g with | some v => decide (v > 0) | none => false)
      || (match n.energyKcal_100g with | some v => decide (v > 0) | none => false)
    let hasMacros :=
      (match n.proteins_100g with | some v => decide (v ≥ 0) | none => false)
      || (match n.carbohydrates_100g with | some v => decide (v ≥ 0) | none => false)
      || (match n.fat_100g with | some v => decide (v ≥ 0) | none => false)
    hasCalories && hasMacros

/-- Mirrors `OpenFoodFactsClient.validateMacroValue`: absent values become
0, negatives become 0, and the per-macro upper bound is applied. -/
def validateMacroValue (value : Option ℚ) (maxValue : ℚ) : ℚ :=
  match value with
  | none => 0
  | some v => if v < 0 then 0 else min v maxValue

/-- Mirrors `OpenFoodFactsClient.convertToFoodItem`.  Note that the
produced metadata carries no `confidence` value. -/
def convertToFoodItem (p : OFFProduct) : FoodItem :=
  let n := p.nutriments
  { id := "off_" ++ p.code,
    name := p.product_name,
    basePortion := { quantity := 100, unit := "g" },
    macrosPerBase :=
      { caloriesKcal := jsOrNum n.energyKcal_100g (jsOrNum n.energy_100g 0),
        proteinG := validateMacroValue n.proteins_100g 50,
        carbsG := validateMacroValue n.carbohydrates_100g 100,
        fatG := validateMacroValue n.fat_100g 100,
        fiberG := some (validateMacroValue n.fiber_100g 50),
        sugarG := some (validateMacroValue n.sugars_100g 100) },
    densityGPerMl := none,
    metadata := some
      { source := .open_food_facts,
        barcode := some p.code,
        brand := p.brands,
        categories := p.categories_tags,
        confidence := none } }

/-- The possible outcomes of the barcode fetch against the external
catalog, as the client distinguishes them. -/
inductive BarcodeFetchOutcome where
  | httpError (status : Nat)
  | networkFailure
  | bodyStatusZero
  | bodyNoProduct
  | bodyProduct (p : OFFProduct)
deriving DecidableEq, Repr

/-- Mirrors `OpenFoodFactsClient.getFoodByBarcode`: HTTP 404 and a
`status: 0` body return `null`; a non-404 HTTP error, a network failure or
a malformed body throw, and the surrounding catch rethrows them wrapped in
a generic `Failed to lookup barcode` error; a product body is validated and
returned (`null` when invalid). -/
def offGetFoodByBarcode (outcome : BarcodeFetchOutcome) : Except String (Option OFFProduct) :=
  match outcome with
  | .httpError status =>
      if status = 404 then .ok none
      else .error ("Failed to lookup barcode: HTTP " ++ toString status)
  | .networkFailure => .error "Failed to lookup barcode: network failure"
  | .bodyStatusZero => .ok none
  | .bodyNoProduct => .error "Failed to lookup barcode: Invalid response format from Open Food Facts"
  | .bodyProduct p => .ok (if isValidProduct p then some p else none)

/-- Mirrors `HybridFoodService.getFoodByBarcode`: convert a returned
product; catch every client error and return `null`. -/
def hybridGetFoodByBarcode (outcome : BarcodeFetchOutcome) : Option FoodItem :=
  match offGetFoodByBarcode outcome with
  | .ok (some p) => some (convertToFoodItem p)
  | .ok none => none
  | .error _ => none

/-! ## Counterexample and witness inputs, and auxiliary definitions -/

/-- Resolvable food used in the counterexample for claim C3. -/
def eggFood : FoodItem :=
  { id := "egg_whole",
    name := "Egg, whole",
    basePortion := { quantity := 100, unit := "g" },
    macrosPerBase := { caloriesKcal := 143, proteinG := 13, carbsG := 1, fatG := 10 } }

/-- Macro engine state for the C3 counterexample: `egg_whole` resolves, but
no `pieceToGramMap` was supplied. -/
def eggState : MacroEngineState :=
  { foods := [eggFood], pieceToGramMap := none, hybrid := fun _ => none }

/-- Empty engine state used in the C4 witness. -/
def emptyEngineState : MacroEngineState :=
  { foods := [], pieceToGramMap := none, hybrid := fun _ => none }

/-- The fields of a candidate the sorting and LLM-boost steps never touch:
food, suggested portion, macros and macro distance. -/
def candCore (c : SubstitutionCandidate) :
    FoodItem × FoodPortion × MacroProfile × MacroDistance :=
  (c.food, c.suggestedPortion, c.macros, c.score.macroDistance)

/-- A profile whose optional fields are present (accumulator shape of the
reducer). -/
def isNormalized (m : MacroProfile) : Prop := m.fiberG.isSome ∧ m.sugarG.isSome

instance exceptDecEq {ε α : Type} [DecidableEq ε] [DecidableEq α] :
    DecidableEq (Except ε α) := fun x y =>
  match x, y with
  | .ok a, .ok b =>
      if h : a = b then .isTrue (by rw [h])
      else .isFalse (by intro hc; injection hc; contradiction)
  | .ok _, .error _ => .isFalse (by intro hc; cases hc)
  | .error _, .ok _ => .isFalse (by intro hc; cases hc)
  | .error e, .error f =>
      if h : e = f then .isTrue (by rw [h])
      else .isFalse (by intro hc; injection hc; contradiction)

/-- Witness food with a 100 g base portion and round macros. -/
def foodA : FoodItem :=
  { id := "a", name := "Food A",
    basePortion := { quantity := 100, unit := "g" },
    macrosPerBase := { caloriesKcal := 100, proteinG := 10, carbsG := 10, fatG := 10 } }

/-- Witness candidate food with the same macros as `foodA` and no
metadata. -/
def foodB : FoodItem :=
  { id := "b", name := "Food B",
    basePortion := { quantity := 100, unit := "g" },
    macrosPerBase := { caloriesKcal := 100, proteinG := 10, carbsG := 10, fatG := 10 } }

/-- Witness macro engine indexing `foodA` and `foodB`. -/
def stA : MacroEngineState :=
  { foods := [foodA, foodB], pieceToGramMap := none, hybrid := fun _ => none }

/-- Witness substitution engine over `foodA` and `foodB`. -/
def subStA : SubEngineState := { engine := stA, allFoods := [foodA, foodB] }

/-- The 100 g witness portion. -/
def wPortion : FoodPortion := { quantity := 100, unit := "g" }

/-- Expected macros of 50 g of `foodA`. -/
def mW : MacroProfile := { caloriesKcal := 50, proteinG := 5, carbsG := 5, fatG := 5 }

/-- Calorie target used in the C10 witness (twice the base calories). -/
def targetW : MacroProfile := { caloriesKcal := 200, proteinG := 0, carbsG := 0, fatG := 0 }

/-- The 100 g reference macros of `foodB` in `stA`. -/
def baseW : MacroProfile := { caloriesKcal := 100, proteinG := 10, carbsG := 10, fatG := 10 }

/-- C1 witness result: the default-constraints run over `subStA`. -/
def w1Res : SubstitutionResult :=
  (findSubstitutions subStA "a" wPortion {} none).toOption.getD default

/-- C1 witness candidate: the first returned candidate. -/
def w1Cand : SubstitutionCandidate := w1Res.candidates.getD 0 default

/-- Food whose name contains the declared allergen of the C2 witness. -/
def foodPeanut : FoodItem :=
  { id := "p", name := "Peanut Butter",
    basePortion := { quantity := 100, unit := "g" },
    macrosPerBase := { caloriesKcal := 100, proteinG := 10, carbsG := 10, fatG := 10 } }

/-- Engine state for the C2 witness. -/
def stC2 : MacroEngineState :=
  { foods := [foodA, foodPeanut, foodB], pieceToGramMap := none, hybrid := fun _ => none }

/-- Substitution engine for the C2 witness. -/
def subStC2 : SubEngineState := { engine := stC2, allFoods := [foodA, foodPeanut, foodB] }

/-- Constraints declaring a "nut" allergy. -/
def constraintsC2 : SubstitutionConstraints :=
  { preferences := some { allergies := some ["nut"] } }

/-- C2 witness result. -/
def w2Res : SubstitutionResult :=
  (findSubstitutions subStC2 "a" wPortion constraintsC2 none).toOption.getD default

/-- C2 witness candidate. -/
def w2Cand : SubstitutionCandidate := w2Res.candidates.getD 0 default

/-- Candidate food carrying an explicit confidence of 0.8 from the curated
source. -/
def foodB8 : FoodItem :=
  { id := "b8", name := "Food B8",
    basePortion := { quantity := 100, unit := "g" },
    macrosPerBase := { caloriesKcal := 100, proteinG := 10, carbsG := 10, fatG := 10 },
    metadata := some { source := .local, confidence := some (4/5) } }

/-- Engine state for the C7 witness. -/
def stC7w : MacroEngineState :=
  { foods := [foodA, foodB8], pieceToGramMap := none, hybrid := fun _ => none }

/-- Substitution engine for the C7 witness. -/
def subStC7w : SubEngineState := { engine := stC7w, allFoods := [foodA, foodB8] }

/-- C7 witness result. -/
def w7Res : SubstitutionResult :=
  (findSubstitutions subStC7w "a" wPortion {} none).toOption.getD default

/-- C7 witness candidate. -/
def w7Cand : SubstitutionCandidate := w7Res.candidates.getD 0 default

/-- Candidate food carrying an explicit confidence of 0 from the curated
source. -/
def foodB0 : FoodItem :=
  { id := "b0", name := "Food B0",
    basePortion := { quantity := 100, unit := "g" },
    macrosPerBase := { caloriesKcal := 100, proteinG := 10, carbsG := 10, fatG := 10 },
    metadata := some { source := .local, confidence := some 0 } }

/-- Engine state for the C7 counterexample. -/
def stC7 : MacroEngineState :=
  { foods := [foodA, foodB0], pieceToGramMap := none, hybrid := fun _ => none }

/-- Substitution engine for the C7 counterexample. -/
def subStC7 : SubEngineState := { engine := stC7, allFoods := [foodA, foodB0] }

/-- Original food of the C8 counterexample. -/
def cexOrigFood : FoodItem :=
  { id := "white_rice_cooked", name := "White rice, cooked",
    basePortion := { quantity := 100, unit := "g" },
    macrosPerBase := { caloriesKcal := 130, proteinG := 27/10, carbsG := 28, fatG := 3/10 } }

/-- Candidate food of the C8 counterexample (curated source, confidence
1, name matching the inexpensive-staple list). -/
def cexCandFood : FoodItem :=
  { id := "brown_rice_cooked", name := "Brown rice, cooked",
    basePortion := { quantity := 100, unit := "g" },
    macrosPerBase := { caloriesKcal := 112, proteinG := 26/10, carbsG := 235/10, fatG := 9/10 },
    metadata := some { source := .local, confidence := some 1 } }

/-- Zero macro distance used in the C8 counterexample. -/
def cexMd : MacroDistance :=
  { caloriesPercent := 0, proteinPercent := 0, carbsPercent := 0, fatPercent := 0,
    overallScore := 0 }

/-- Meals of the C5 witness: 50 g and 100 g of `foodA` in two meals. -/
def mealsW : List (List MealItemInput) :=
  [[{ foodId := "a", portion := { quantity := 50, unit := "g" } }],
   [{ foodId := "a", portion := { quantity := 100, unit := "g" } }]]

/-- C5 witness day result. -/
def dW : DayMacros := (computeDayMacros stA mealsW).toOption.getD default

/-- Success predicate on an embedded fallible computation. -/
def isOk {α : Type} : Except String α → Bool
  | .ok _ => true
  | .error _ => false


/-! ## Helper lemmas -/

lemma isOk_ok {α : Type} (a : α) : isOk (.ok a) = true := rfl

lemma isOk_iff_exists {α : Type} (e : Except String α) :
    isOk e = true ↔ ∃ a, e = .ok a := by
  cases e with
  | error e => simp [isOk]
  | ok a => simp [isOk]

lemma mapME_cons {α β : Type} (f : α → Except String β) (x : α) (xs : List α) :
    mapME f (x :: xs) =
      match f x with
      | .error e => .error e
      | .ok y =>
          match mapME f xs with
          | .error e => .error e
          | .ok ys => .ok (y :: ys) := rfl

lemma mapME_isOk_iff {α β : Type} (f : α → Except String β) (l : List α) :
    isOk (mapME f l) = true ↔ ∀ x ∈ l, isOk (f x) = true := by
  induction l with
  | nil => simp [mapME, isOk]
  | cons x xs ih =>
      rw [List.forall_mem_cons, ← ih, mapME_cons]
      cases hx : f x with
      | error e => simp [isOk]
      | ok y =>
          cases hxs : mapME f xs with
          | error e => simp [isOk]
          | ok ys => simp [isOk]

/-- Success of `computeMealMacros` is exactly success of each item. -/
lemma computeMealMacros_isOk_iff (st : MacroEngineState) (items : List MealItemInput) :
    isOk (computeMealMacros st items) = true ↔
      ∀ item ∈ items, isOk (computeItemMacros st item.foodId item.portion) = true := by
  unfold computeMealMacros
  rw [← mapME_isOk_iff]
  cases mapME (fun item => computeItemMacros st item.foodId item.portion) items with
  | error e => simp [Except.map, isOk]
  | ok l => simp [Except.map, isOk]

/-- Success of `computeDayMacros` is exactly success of each meal. -/
lemma computeDayMacros_isOk_iff (st : MacroEngineState) (meals : List (List MealItemInput)) :
    isOk (computeDayMacros st meals) = true ↔
      ∀ meal ∈ meals, isOk (computeMealMacros st meal) = true := by
  unfold computeDayMacros
  rw [← mapME_isOk_iff]
  cases mapME (computeMealMacros st) meals with
  | error e => simp [Except.map, isOk]
  | ok l => simp [Except.map, isOk]

/-! ## Claim C3 -/

/-- C3: counterexample.  The claim says meal aggregation never fails and
that an item with a `piece` portion but no grams-per-piece mapping, or an
unsupported unit, contributes zero.  In the code such an item makes
`computeItemMacros` throw for a resolvable food, and `Promise.all` then
rejects the whole `computeMealMacros`/`computeDayMacros` call. -/
theorem mealAggregation_pieceWithoutMap_fails :
    getFood eggState "egg_whole" = some eggFood ∧
    computeMealMacros eggState
        [{ foodId := "egg_whole", portion := { quantity := 1, unit := "piece" } }]
      = .error "Missing grams per piece for food egg_whole" ∧
    computeMealMacros eggState
        [{ foodId := "egg_whole", portion := { quantity := 1, unit := "bowl" } }]
      = .error "Unsupported unit: bowl" ∧
    computeDayMacros eggState
        [[{ foodId := "egg_whole", portion := { quantity := 1, unit := "piece" } }]]
      = .error "Missing grams per piece for food egg_whole" :=
  ⟨rfl, rfl, rfl, rfl⟩

/-- C3 (amended): the aggregation paths succeed exactly when every single
item computation succeeds — an unresolvable food still contributes zero (it
is an `ok` item, see the C4 theorem), but a resolvable food whose portion
cannot be converted (a `piece` portion with no grams-per-piece mapping, or
an unsupported unit) fails the whole meal/day computation instead of
degrading to zero. -/
theorem mealAndDayAggregation_ok_iff (st : MacroEngineState)
    (items : List MealItemInput) (meals : List (List MealItemInput)) :
    (isOk (computeMealMacros st items) = true ↔
      ∀ item ∈ items, isOk (computeItemMacros st item.foodId item.portion) = true) ∧
    (isOk (computeDayMacros st meals) = true ↔
      ∀ meal ∈ meals, ∀ item ∈ meal,
        isOk (computeItemMacros st item.foodId item.portion) = true) := by
  refine ⟨computeMealMacros_isOk_iff st items, ?_⟩
  rw [computeDayMacros_isOk_iff]
  constructor
  · intro h meal hm
    exact (computeMealMacros_isOk_iff st meal).mp (h meal hm)
  · intro h meal hm
    exact (computeMealMacros_isOk_iff st meal).mpr (h meal hm)

/-! ## Claim C4 -/

/-- C4: for every food id that neither the local index nor the hybrid
service resolves, `computeItemMacros` returns the all-zero profile for any
portion and does not throw. -/
theorem computeItemMacros_unknown_returns_zero (st : MacroEngineState)
    (foodId : String) (portion : FoodPortion) (h : getFood st foodId = none) :
    computeItemMacros st foodId portion = .ok zeroMacros ∧
    zeroMacros.caloriesKcal = 0 ∧ zeroMacros.proteinG = 0 ∧
    zeroMacros.carbsG = 0 ∧ zeroMacros.fatG = 0 := by
  refine ⟨?_, rfl, rfl, rfl, rfl⟩
  unfold computeItemMacros
  rw [h]

/-- C4: witness at the spec scenario `computeItemMacros("unknown_id",
{100, "g"})`. -/
theorem computeItemMacros_unknown_returns_zero_witness :
    computeItemMacros emptyEngineState "unknown_id" { quantity := 100, unit := "g" }
        = .ok zeroMacros ∧
    zeroMacros.caloriesKcal = 0 ∧ zeroMacros.proteinG = 0 ∧
    zeroMacros.carbsG = 0 ∧ zeroMacros.fatG = 0 :=
  computeItemMacros_unknown_returns_zero emptyEngineState "unknown_id"
    { quantity := 100, unit := "g" } rfl

/-! ## Claim C6 -/

lemma toGrams_scale {q g : ℚ} {u : String} (c : ℚ) (h : toGrams q u = .ok g) :
    toGrams (c * q) u = .ok (c * g) := by
  unfold toGrams at h ⊢
  cases hm : MASS_TO_GRAMS u with
  | none =>
      try rw [hm] at h
      try dsimp only at h
      cases h
  | some factor =>
      try rw [hm] at h
      try dsimp only at h
      try dsimp only
      injection h with h
      subst h
      exact congrArg Except.ok (mul_assoc c q factor)

lemma toMilliliters_scale {q g : ℚ} {u : String} (c : ℚ) (h : toMilliliters q u = .ok g) :
    toMilliliters (c * q) u = .ok (c * g) := by
  unfold toMilliliters at h ⊢
  cases hm : VOLUME_TO_ML u with
  | none =>
      try rw [hm] at h
      try dsimp only at h
      cases h
  | some factor =>
      try rw [hm] at h
      try dsimp only at h
      try dsimp only
      injection h with h
      subst h
      exact congrArg Except.ok (mul_assoc c q factor)

lemma portionToGrams_scale {q g : ℚ} {u : String} {d : Option ℚ} (c : ℚ)
    (h : portionToGrams q u d = .ok g) : portionToGrams (c * q) u d = .ok (c * g) := by
  unfold portionToGrams at h ⊢
  split_ifs at h ⊢ with h1 h2 h3
  · exact toGrams_scale c h
  · cases d with
    | none => cases h
    | some dd =>
        cases hm : toMilliliters q u with
        | error e =>
            try rw [hm] at h
            try dsimp only at h
            cases h
        | ok ml =>
            try rw [hm] at h
            try dsimp only at h
            rw [toMilliliters_scale c hm]
            injection h with h
            subst h
            exact congrArg Except.ok (mul_assoc c ml dd)

lemma resolvePortionGrams_scale {st : MacroEngineState} {food : FoodItem} {q g : ℚ}
    {u : String} (c : ℚ)
    (h : resolvePortionGrams st food { quantity := q, unit := u } = .ok g) :
    resolvePortionGrams st food { quantity := c * q, unit := u } = .ok (c * g) := by
  unfold resolvePortionGrams at h ⊢
  dsimp only at h ⊢
  split_ifs at h ⊢ with h1 h2
  · cases hm : st.pieceToGramMap.bind (fun m => assocFind m food.id) with
    | none =>
        try rw [hm] at h
        try dsimp only at h
        cases h
    | some gramsPerPiece =>
        try rw [hm] at h
        try dsimp only at h
        try dsimp only
        injection h with h
        subst h
        exact congrArg Except.ok (mul_assoc c q gramsPerPiece)
  · exact portionToGrams_scale c h

lemma scaleMacros_twice (m : MacroProfile) (r : ℚ) :
    scaleMacros m (2 * r) =
      { caloriesKcal := 2 * (scaleMacros m r).caloriesKcal,
        proteinG := 2 * (scaleMacros m r).proteinG,
        carbsG := 2 * (scaleMacros m r).carbsG,
        fatG := 2 * (scaleMacros m r).fatG,
        fiberG := (scaleMacros m r).fiberG.map (fun f => 2 * f),
        sugarG := (scaleMacros m r).sugarG.map (fun s => 2 * s) } := by
  unfold scaleMacros
  simp only [MacroProfile.mk.injEq]
  refine ⟨by ring, by ring, by ring, by ring, ?_, ?_⟩
  · cases m.fiberG with
    | none => rfl
    | some f => exact congrArg some (by ring)
  · cases m.sugarG with
    | none => rfl
    | some s => exact congrArg some (by ring)

/-- C6: linearity.  For every food the engine resolves and every unit for
which the portion computation succeeds, doubling the quantity doubles every
macro field exactly (ℚ embeds the float arithmetic, so "within
floating-point tolerance" becomes equality). -/
theorem computeItemMacros_linear (st : MacroEngineState) (foodId : String)
    (q : ℚ) (u : String) (m : MacroProfile)
    (h : computeItemMacros st foodId { quantity := q, unit := u } = .ok m) :
    computeItemMacros st foodId { quantity := 2 * q, unit := u } =
      .ok { caloriesKcal := 2 * m.caloriesKcal, proteinG := 2 * m.proteinG,
            carbsG := 2 * m.carbsG, fatG := 2 * m.fatG,
            fiberG := m.fiberG.map (fun f => 2 * f),
            sugarG := m.sugarG.map (fun s => 2 * s) } := by
  unfold computeItemMacros at h ⊢
  cases hf : getFood st foodId with
  | none =>
      simp only [hf] at h ⊢
      injection h with h
      subst h
      simp [zeroMacros]
      try norm_num
  | some food =>
      simp only [hf] at h ⊢
      cases hg : resolvePortionGrams st food { quantity := q, unit := u } with
      | error e =>
          try rw [hg] at h
          try dsimp only at h
          cases h
      | ok grams =>
          try rw [hg] at h
          try dsimp only at h
          rw [resolvePortionGrams_scale 2 hg]
          cases hb : resolvePortionGrams st food food.basePortion with
          | error e =>
              try rw [hb] at h
              try dsimp only at h
              cases h
          | ok baseGrams =>
              try rw [hb] at h
              try dsimp only at h
              try dsimp only
              injection h with h
              subst h
              rw [mul_div_assoc, scaleMacros_twice]

/-! ## Claim C10 -/

lemma one_le_roundTo1 {x : ℚ} (hx : 1 ≤ x) : 1 ≤ roundTo1 x := by
  unfold roundTo1
  have h10 : (10:ℤ) ≤ round (x * 10) := by
    rw [round_eq, Int.le_floor]
    push_cast
    linarith
  have h10q : ((10:ℤ):ℚ) ≤ ((round (x * 10) : ℤ) : ℚ) := by exact_mod_cast h10
  push_cast at h10q
  linarith

/-- C10: `calculateOptimalPortion` is total and clamped.  When the
candidate's 100 g reference macros compute to exactly zero calories the
unmodified reference portion is returned (no division happens); otherwise
the quantity is `100 · targetCalories / candidateCaloriesPer100g`, clamped
below at 1 and then rounded to one decimal place; every returned portion
has quantity at least 1. -/
theorem calculateOptimalPortion_total_clamped (st : MacroEngineState) (food : FoodItem)
    (target : MacroProfile) (baseMacros : MacroProfile)
    (h : computeItemMacros st food.id { quantity := 100, unit := "g" } = .ok baseMacros) :
    (baseMacros.caloriesKcal = 0 →
      calculateOptimalPortion st food target = .ok { quantity := 100, unit := "g" }) ∧
    (baseMacros.caloriesKcal ≠ 0 →
      calculateOptimalPortion st food target =
        .ok { quantity :=
                roundTo1 (max 1 (100 * (target.caloriesKcal / baseMacros.caloriesKcal))),
              unit := "g" }) ∧
    (∀ p, calculateOptimalPortion st food target = .ok p → 1 ≤ p.quantity) := by
  unfold calculateOptimalPortion
  dsimp only
  rw [h]
  dsimp only
  by_cases hz : baseMacros.caloriesKcal = 0
  · rw [if_pos hz]
    refine ⟨fun _ => rfl, fun hne => absurd hz hne, ?_⟩
    intro p hp
    injection hp with hp
    subst hp
    norm_num
  · rw [if_neg hz]
    refine ⟨fun heq => absurd heq hz, fun _ => rfl, ?_⟩
    intro p hp
    injection hp with hp
    subst hp
    exact one_le_roundTo1 (le_max_left 1 _)

/-! ## Claim C8 -/

/-- C8 (amended): the scoring formula.  For every scored candidate,
`totalScore = 0.5·macroScore + 0.2·preferenceScore + 0.2·availabilityScore
+ 0.1·costScore` — the weighted sum is NOT additionally multiplied by 100 —
where `macroScore = max(0, 100 − overallScore·2)`, `preferenceScore` starts
at 80 with a cuisine bonus (`calculatePreferenceScore`), `availabilityScore`
blends `confidence || 0.7` with the fixed per-source quality table
(`calculateAvailabilityScore`), and `costScore` depends on matching the
inexpensive-staple name list (`calculateCostScore`). -/
theorem calculateScore_formula (origFood candFood : FoodItem) (md : MacroDistance)
    (prefs : Option UserPreferences) :
    (calculateScore origFood candFood md prefs).macroScore
        = max 0 (100 - md.overallScore * 2) ∧
    (calculateScore origFood candFood md prefs).preferenceScore
        = calculatePreferenceScore candFood prefs ∧
    (calculateScore origFood candFood md prefs).availabilityScore
        = calculateAvailabilityScore candFood ∧
    (calculateScore origFood candFood md prefs).costScore
        = calculateCostScore candFood ∧
    (calculateScore origFood candFood md prefs).totalScore
        = max 0 (100 - md.overallScore * 2) * (1/2)
          + calculatePreferenceScore candFood prefs * (1/5)
          + calculateAvailabilityScore candFood * (1/5)
          + calculateCostScore candFood * (1/10) :=
  ⟨rfl, rfl, rfl, rfl, rfl⟩

/-! ## Claim C9 -/

/-- C9 (amended): barcode lookup.  A 404 response and a `status: 0` body
are valid non-error outcomes (`null`) at both the client and the hybrid
level.  Every other failure makes the client throw a generic wrapped
`Error` (no `DataSourceUnavailable` type exists anywhere in the code), and
`HybridFoodService.getFoodByBarcode` catches every client error and returns
`null`, so no typed error ever surfaces from the hybrid lookup. -/
theorem barcode_lookup_behaviour :
    offGetFoodByBarcode (.httpError 404) = .ok none ∧
    offGetFoodByBarcode .bodyStatusZero = .ok none ∧
    hybridGetFoodByBarcode (.httpError 404) = none ∧
    hybridGetFoodByBarcode .bodyStatusZero = none ∧
    (∀ status : Nat, status ≠ 404 →
      offGetFoodByBarcode (.httpError status)
        = .error ("Failed to lookup barcode: HTTP " ++ toString status)) ∧
    (∀ outcome : BarcodeFetchOutcome, isOk (offGetFoodByBarcode outcome) = false →
      hybridGetFoodByBarcode outcome = none) := by
  refine ⟨rfl, rfl, rfl, rfl, ?_, ?_⟩
  · intro status hs
    unfold offGetFoodByBarcode
    dsimp only
    rw [if_neg hs]
  · intro outcome hfail
    unfold hybridGetFoodByBarcode
    cases ho : offGetFoodByBarcode outcome with
    | error e => rfl
    | ok v =>
        rw [ho] at hfail
        simp [isOk] at hfail

/-- C9: witness for the amended theorem, at a concrete non-404 HTTP error
and a concrete network failure. -/
theorem barcode_lookup_behaviour_witness :
    offGetFoodByBarcode (.httpError 500)
        = .error ("Failed to lookup barcode: HTTP " ++ toString 500) ∧
    hybridGetFoodByBarcode .networkFailure = none :=
  ⟨barcode_lookup_behaviour.2.2.2.2.1 500 (by decide),
   barcode_lookup_behaviour.2.2.2.2.2 .networkFailure rfl⟩

/-- C9: counterexample.  A network failure is "another failure of the
external catalog", yet the lookup surfaced to callers returns `null`: the
client throws only a generic wrapped error and the hybrid level swallows it
and returns `null`, so no typed `DataSourceUnavailable` is surfaced. -/
theorem barcode_failure_returns_null :
    isOk (offGetFoodByBarcode .networkFailure) = false ∧
    offGetFoodByBarcode .networkFailure
        = .error "Failed to lookup barcode: network failure" ∧
    hybridGetFoodByBarcode .networkFailure = none :=
  ⟨rfl, rfl, rfl⟩

/-! ## Pipeline membership lemmas (shared by the `findSubstitutions`
claims) -/

lemma candCore_boostCand (b : ℚ) (r : Option String) (c : SubstitutionCandidate) :
    candCore (boostCand b r c) = candCore c := rfl

lemma mem_insertDesc {z x : SubstitutionCandidate} :
    ∀ {l : List SubstitutionCandidate}, z ∈ insertDesc x l → z = x ∨ z ∈ l := by
  intro l
  induction l with
  | nil =>
      intro h
      unfold insertDesc at h
      simp at h
      exact Or.inl h
  | cons y ys ih =>
      intro h
      unfold insertDesc at h
      split_ifs at h
      · simpa using h
      · rcases List.mem_cons.mp h with h1 | h2
        · exact Or.inr (h1 ▸ List.mem_cons_self y ys)
        · rcases ih h2 with h3 | h4
          · exact Or.inl h3
          · exact Or.inr (List.mem_cons_of_mem y h4)

lemma mem_sortByScoreDesc {z : SubstitutionCandidate} :
    ∀ {l : List SubstitutionCandidate}, z ∈ sortByScoreDesc l → z ∈ l := by
  intro l
  induction l with
  | nil => intro h; simp [sortByScoreDesc] at h
  | cons x xs ih =>
      intro h
      have hx : z ∈ insertDesc x (sortByScoreDesc xs) := h
      rcases mem_insertDesc hx with h1 | h2
      · exact h1 ▸ List.mem_cons_self x xs
      · exact List.mem_cons_of_mem x (ih h2)

lemma mem_modifyAt {α : Type} {z : α} :
    ∀ {l : List α} {i : Nat} {f : α → α},
      z ∈ modifyAt l i f → z ∈ l ∨ ∃ x ∈ l, z = f x := by
  intro l
  induction l with
  | nil => intro i f h; simp [modifyAt] at h
  | cons x xs ih =>
      intro i f h
      cases i with
      | zero =>
          unfold modifyAt at h
          rcases List.mem_cons.mp h with h1 | h2
          · exact Or.inr ⟨x, List.mem_cons_self x xs, h1⟩
          · exact Or.inl (List.mem_cons_of_mem x h2)
      | succ n =>
          unfold modifyAt at h
          rcases List.mem_cons.mp h with h1 | h2
          · exact Or.inl (h1 ▸ List.mem_cons_self x xs)
          · rcases ih h2 with h3 | ⟨y, hy, hz⟩
            · exact Or.inl (List.mem_cons_of_mem x h3)
            · exact Or.inr ⟨y, List.mem_cons_of_mem x hy, hz⟩

lemma foldl_candCore_inv {β : Type}
    (stepF : List SubstitutionCandidate → β → List SubstitutionCandidate)
    (hstep : ∀ acc b z, z ∈ stepF acc b → ∃ x ∈ acc, candCore z = candCore x) :
    ∀ (bs : List β) (acc : List SubstitutionCandidate) (z : SubstitutionCandidate),
      z ∈ List.foldl stepF acc bs → ∃ x ∈ acc, candCore z = candCore x := by
  intro bs
  induction bs with
  | nil => intro acc z h; exact ⟨z, by simpa using h, rfl⟩
  | cons b bs ih =>
      intro acc z h
      rcases ih (stepF acc b) z h with ⟨x, hx, hcore⟩
      rcases hstep acc b x hx with ⟨y, hy, hcore2⟩
      exact ⟨y, hy, hcore.trans hcore2⟩

lemma mem_applyLLMRanking {z : SubstitutionCandidate}
    {cands : List SubstitutionCandidate} {rankings : List LLMRanking}
    (h : z ∈ applyLLMRanking cands rankings) :
    ∃ x ∈ cands, candCore z = candCore x := by
  unfold applyLLMRanking at h
  refine foldl_candCore_inv _ ?_ _ _ _ h
  intro acc b w hw
  dsimp only at hw
  split_ifs at hw with hc
  · rcases mem_modifyAt hw with h1 | ⟨x, hx, hz⟩
    · exact ⟨w, h1, rfl⟩
    · exact ⟨x, hx, hz ▸ candCore_boostCand _ _ x⟩
  · exact ⟨w, hw, rfl⟩

lemma evalOne_some {st : MacroEngineState} {origFood : FoodItem}
    {origMacros : MacroProfile} {constraints : EffectiveConstraints}
    {candidate : FoodItem} {z : SubstitutionCandidate}
    (h : evalOne st origFood origMacros constraints candidate = some z) :
    z.food = candidate ∧
    calculateOptimalPortion st candidate origMacros = .ok z.suggestedPortion ∧
    computeItemMacros st candidate.id z.suggestedPortion = .ok z.macros ∧
    z.score = calculateScore origFood candidate
      (calculateMacroDistance origMacros z.macros) constraints.preferences ∧
    (calculateMacroDistance origMacros z.macros).overallScore
      ≤ constraints.macroTolerancePercent := by
  unfold evalOne at h
  cases hp : calculateOptimalPortion st candidate origMacros with
  | error e =>
      try rw [hp] at h
      try dsimp only at h
      cases h
  | ok sp =>
      try rw [hp] at h
      try dsimp only at h
      cases hm : computeItemMacros st candidate.id sp with
      | error e =>
          try rw [hm] at h
          try dsimp only at h
          cases h
      | ok cm =>
          try rw [hm] at h
          try dsimp only at h
          split_ifs at h with htol
          injection h with h
          subst h
          exact ⟨rfl, rfl, hm, rfl, le_of_not_lt htol⟩

lemma mem_evaluateCandidates {st : MacroEngineState} {origFood : FoodItem}
    {origMacros : MacroProfile} {constraints : EffectiveConstraints} :
    ∀ {l : List FoodItem} {z : SubstitutionCandidate},
      z ∈ evaluateCandidates st origFood origMacros constraints l →
      ∃ cand ∈ l, cand.id ≠ origFood.id ∧
        passesBasicFilters cand constraints = true ∧
        evalOne st origFood origMacros constraints cand = some z := by
  intro l
  induction l with
  | nil => intro z h; simp [evaluateCandidates] at h
  | cons c rest ih =>
      intro z h
      unfold evaluateCandidates at h
      split_ifs at h with h1 h2
      · rcases ih h with ⟨cand, hc, hrest⟩
        exact ⟨cand, List.mem_cons_of_mem c hc, hrest⟩
      · rcases ih h with ⟨cand, hc, hrest⟩
        exact ⟨cand, List.mem_cons_of_mem c hc, hrest⟩
      · cases he : evalOne st origFood origMacros constraints c with
        | none =>
            rw [he] at h
            rcases ih h with ⟨cand, hc, hrest⟩
            exact ⟨cand, List.mem_cons_of_mem c hc, hrest⟩
        | some sc =>
            rw [he] at h
            rcases List.mem_cons.mp h with h3 | h4
            · refine ⟨c, List.mem_cons_self c rest, h1, ?_, h3 ▸ he⟩
              simpa using h2
            · rcases ih h4 with ⟨cand, hc, hrest⟩
              exact ⟨cand, List.mem_cons_of_mem c hc, hrest⟩

lemma findSubstitutions_candidates {st : SubEngineState} {foodId : String}
    {portion : FoodPortion} {constraints : SubstitutionConstraints}
    {llm : Option (List LLMRanking)} {res : SubstitutionResult}
    (h : findSubstitutions st foodId portion constraints llm = .ok res) :
    ∃ origFood origMacros,
      getFood st.engine foodId = some origFood ∧
      computeItemMacros st.engine foodId portion = .ok origMacros ∧
      res.originalMacros = origMacros ∧
      ∀ z ∈ res.candidates,
        ∃ x ∈ evaluateCandidates st.engine origFood origMacros
            (applyDefaults constraints) st.allFoods,
          candCore z = candCore x := by
  unfold findSubstitutions at h
  cases hf : getFood st.engine foodId with
  | none =>
      try rw [hf] at h
      try dsimp only at h
      cases h
  | some origFood =>
      try rw [hf] at h
      try dsimp only at h
      cases hm : computeItemMacros st.engine foodId portion with
      | error e =>
          try rw [hm] at h
          try dsimp only at h
          cases h
      | ok origMacros =>
          try rw [hm] at h
          try dsimp only at h
          injection h with h
          subst h
          refine ⟨origFood, origMacros, rfl, rfl, rfl, ?_⟩
          intro z hz
          dsimp only at hz
          have hz2 := mem_sortByScoreDesc (List.take_subset _ _ hz)
          cases llm with
          | none => exact ⟨z, hz2, rfl⟩
          | some rankings =>
              dsimp only at hz2
              split_ifs at hz2
              · exact mem_applyLLMRanking hz2
              · exact ⟨z, hz2, rfl⟩

/-! ## Claim C1 -/

/-- C1: tolerance compliance.  For every call to `findSubstitutions` that
returns a result, every returned candidate's macro distance — the
arithmetic mean of the calories/protein/carbs/fat percent differences
between the original's macros and the candidate's macros at its suggested
portion — is at most the effective `macroTolerancePercent`: the caller's
value, or 5 when not supplied. -/
theorem findSubstitutions_tolerance (st : SubEngineState) (foodId : String)
    (portion : FoodPortion) (constraints : SubstitutionConstraints)
    (llm : Option (List LLMRanking)) (res : SubstitutionResult)
    (cand : SubstitutionCandidate)
    (h : findSubstitutions st foodId portion constraints llm = .ok res)
    (hc : cand ∈ res.candidates) :
    (calculateMacroDistance res.originalMacros cand.macros).overallScore ≤
      constraints.macroTolerancePercent.getD 5 := by
  rcases findSubstitutions_candidates h with ⟨origFood, origMacros, _, _, hom, hall⟩
  rcases hall cand hc with ⟨x, hx, hcore⟩
  rcases mem_evaluateCandidates hx with ⟨c0, _, _, _, hev⟩
  have he := evalOne_some hev
  have hmac : cand.macros = x.macros := congrArg (fun t => t.2.2.1) hcore
  rw [hom, hmac]
  exact he.2.2.2.2

/-! ## Claim C2 -/

lemma passesBasicFilters_respects {cand : FoodItem} {eff : EffectiveConstraints}
    {prefs : UserPreferences} (h : passesBasicFilters cand eff = true)
    (hp : eff.preferences = some prefs) : respectsPreferences cand prefs = true := by
  unfold passesBasicFilters at h
  dsimp only at h
  rw [Bool.and_eq_true] at h
  rcases h with ⟨_, hpref⟩
  rw [hp] at hpref
  exact hpref

lemma respectsPreferences_excludes {food : FoodItem} {prefs : UserPreferences}
    {a : String} (h : respectsPreferences food prefs = true)
    (ha : a ∈ prefs.allergies.getD [] ∨ a ∈ prefs.dislikes.getD []) :
    strIncludes (strLower food.name) (strLower a) = false := by
  unfold respectsPreferences at h
  dsimp only at h
  rw [Bool.and_eq_true] at h
  rcases h with ⟨hallergy, hdislike⟩
  rcases ha with ha | ha
  · cases hal : prefs.allergies with
    | none => rw [hal] at ha; simp at ha
    | some l =>
        rw [hal] at hallergy ha
        simp only [Option.getD_some] at ha
        have := List.all_eq_true.mp hallergy a ha
        simpa using this
  · cases hdl : prefs.dislikes with
    | none => rw [hdl] at ha; simp at ha
    | some l =>
        rw [hdl] at hdislike ha
        simp only [Option.getD_some] at ha
        have := List.all_eq_true.mp hdislike a ha
        simpa using this

/-- C2: allergy (and dislike) exclusion.  For every call to
`findSubstitutions` with preferences declaring allergies or dislikes, no
returned candidate's lower-cased food name contains a declared allergen or
dislike string, lower-cased, as a substring. -/
theorem findSubstitutions_allergyExclusion (st : SubEngineState) (foodId : String)
    (portion : FoodPortion) (constraints : SubstitutionConstraints)
    (llm : Option (List LLMRanking)) (res : SubstitutionResult)
    (cand : SubstitutionCandidate) (prefs : UserPreferences) (a : String)
    (h : findSubstitutions st foodId portion constraints llm = .ok res)
    (hc : cand ∈ res.candidates)
    (hp : constraints.preferences = some prefs)
    (ha : a ∈ prefs.allergies.getD [] ∨ a ∈ prefs.dislikes.getD []) :
    strIncludes (strLower cand.food.name) (strLower a) = false := by
  rcases findSubstitutions_candidates h with ⟨origFood, origMacros, _, _, _, hall⟩
  rcases hall cand hc with ⟨x, hx, hcore⟩
  rcases mem_evaluateCandidates hx with ⟨c0, _, _, hpass, hev⟩
  have he := evalOne_some hev
  have hfood : cand.food = c0 := by
    have h1 : cand.food = x.food := congrArg (fun t => t.1) hcore
    rw [h1, he.1]
  rw [hfood]
  have hrp : respectsPreferences c0 prefs = true :=
    passesBasicFilters_respects hpass (by simpa [applyDefaults] using hp)
  exact respectsPreferences_excludes hrp ha

/-! ## Claim C7 -/

lemma passesBasicFilters_confidence {cand : FoodItem} {eff : EffectiveConstraints}
    {v : ℚ} (h : passesBasicFilters cand eff = true) (hv : confOf cand = some v)
    (hv0 : v ≠ 0) (hm : eff.minConfidence ≠ 0) : eff.minConfidence ≤ v := by
  unfold passesBasicFilters at h
  dsimp only at h
  rw [Bool.and_eq_true] at h
  rcases h with ⟨hconf, _⟩
  rw [hv] at hconf
  have ht1 : jsTruthyNum eff.minConfidence = true := by
    simp [jsTruthyNum, hm]
  have ht2 : jsTruthyOptNum (some v) = true := by
    simp [jsTruthyOptNum, hv0]
  rw [ht1, ht2] at hconf
  simp only [Bool.and_self, if_true, Option.getD_some, Bool.not_eq_true',
    decide_eq_false_iff_not, not_lt] at hconf
  exact hconf

/-- C7 (amended): confidence filtering.  Basic filtering drops a candidate
on confidence only when the effective `minConfidence` is nonzero AND the
candidate carries a nonzero confidence value below it; hence every returned
candidate that carries a nonzero confidence value has it at least the
effective `minConfidence` (the caller's value, or 0.7).  Candidates whose
metadata carries no confidence value — such as items converted from the
external catalog, whose converter sets none — or whose confidence is 0
bypass the confidence check entirely (see the counterexample). -/
theorem findSubstitutions_confidence (st : SubEngineState) (foodId : String)
    (portion : FoodPortion) (constraints : SubstitutionConstraints)
    (llm : Option (List LLMRanking)) (res : SubstitutionResult)
    (cand : SubstitutionCandidate) (v : ℚ)
    (h : findSubstitutions st foodId portion constraints llm = .ok res)
    (hc : cand ∈ res.candidates)
    (hv : confOf cand.food = some v) (hv0 : v ≠ 0)
    (hm : constraints.minConfidence.getD (7/10) ≠ 0) :
    constraints.minConfidence.getD (7/10) ≤ v := by
  rcases findSubstitutions_candidates h with ⟨origFood, origMacros, _, _, _, hall⟩
  rcases hall cand hc with ⟨x, hx, hcore⟩
  rcases mem_evaluateCandidates hx with ⟨c0, _, _, hpass, hev⟩
  have he := evalOne_some hev
  have hfood : cand.food = c0 := by
    have h1 : cand.food = x.food := congrArg (fun t => t.1) hcore
    rw [h1, he.1]
  rw [hfood] at hv
  exact passesBasicFilters_confidence hpass hv hv0 hm

/-! ## Claim C5 -/

lemma zeroMacros_normalized : isNormalized zeroMacros := ⟨rfl, rfl⟩

lemma addAcc_normalized (a m : MacroProfile) : isNormalized (addAcc a m) := ⟨rfl, rfl⟩

lemma addAcc_assoc (a b c : MacroProfile) :
    addAcc (addAcc a b) c = addAcc a (addAcc b c) := by
  unfold addAcc
  simp only [MacroProfile.mk.injEq, Option.getD_some]
  refine ⟨by ring, by ring, by ring, by ring, by rw [add_assoc], by rw [add_assoc]⟩

lemma addAcc_zeroMacros_right {a : MacroProfile} (ha : isNormalized a) :
    addAcc a zeroMacros = a := by
  obtain ⟨ac, ap, acarbs, afat, afib, asug⟩ := a
  rcases ha with ⟨hf, hs⟩
  rcases Option.isSome_iff_exists.mp hf with ⟨f, hf2⟩
  rcases Option.isSome_iff_exists.mp hs with ⟨s, hs2⟩
  simp only at hf2 hs2
  subst hf2
  subst hs2
  unfold addAcc zeroMacros
  simp

lemma addAcc_zeroMacros_left {m : MacroProfile} (hm : isNormalized m) :
    addAcc zeroMacros m = m := by
  obtain ⟨mc, mp, mcarbs, mfat, mfib, msug⟩ := m
  rcases hm with ⟨hf, hs⟩
  rcases Option.isSome_iff_exists.mp hf with ⟨f, hf2⟩
  rcases Option.isSome_iff_exists.mp hs with ⟨s, hs2⟩
  simp only at hf2 hs2
  subst hf2
  subst hs2
  unfold addAcc zeroMacros
  simp

lemma foldl_addAcc_normalized : ∀ (l : List MacroProfile) {a : MacroProfile},
    isNormalized a → isNormalized (List.foldl addAcc a l) := by
  intro l
  induction l with
  | nil => intro a ha; exact ha
  | cons x xs ih => intro a _; exact ih (addAcc_normalized a x)

lemma foldl_addAcc_eq : ∀ (l : List MacroProfile) {a : MacroProfile},
    isNormalized a →
    List.foldl addAcc a l = addAcc a (List.foldl addAcc zeroMacros l) := by
  intro l
  induction l with
  | nil => intro a ha; exact (addAcc_zeroMacros_right ha).symm
  | cons x xs ih =>
      intro a ha
      show List.foldl addAcc (addAcc a x) xs
        = addAcc a (List.foldl addAcc (addAcc zeroMacros x) xs)
      rw [ih (addAcc_normalized a x), ih (addAcc_normalized zeroMacros x),
        addAcc_assoc, addAcc_assoc,
        addAcc_zeroMacros_left (addAcc_normalized x (List.foldl addAcc zeroMacros xs))]

lemma foldl_addAcc_join : ∀ (L : List (List MacroProfile)),
    List.foldl addAcc zeroMacros L.flatten
      = List.foldl addAcc zeroMacros (L.map (fun l => List.foldl addAcc zeroMacros l)) := by
  intro L
  induction L with
  | nil => rfl
  | cons x L ih =>
      show List.foldl addAcc zeroMacros (x ++ L.flatten)
        = List.foldl addAcc zeroMacros
            (List.foldl addAcc zeroMacros x :: L.map (fun l => List.foldl addAcc zeroMacros l))
      rw [List.foldl_append]
      rw [foldl_addAcc_eq L.flatten (foldl_addAcc_normalized x zeroMacros_normalized), ih]
      show _ = List.foldl addAcc (addAcc zeroMacros (List.foldl addAcc zeroMacros x)) _
      rw [addAcc_zeroMacros_left (foldl_addAcc_normalized x zeroMacros_normalized)]
      rw [foldl_addAcc_eq _ (foldl_addAcc_normalized x zeroMacros_normalized)]

lemma mapME_ok_length {α β : Type} {f : α → Except String β} :
    ∀ {l : List α} {ys : List β}, mapME f l = .ok ys → ys.length = l.length := by
  intro l
  induction l with
  | nil =>
      intro ys h
      injection h with h
      subst h
      rfl
  | cons x xs ih =>
      intro ys h
      rw [mapME_cons] at h
      cases hx : f x with
      | error e => rw [hx] at h; cases h
      | ok y =>
          rw [hx] at h
          cases hxs : mapME f xs with
          | error e => rw [hxs] at h; cases h
          | ok zs =>
              rw [hxs] at h
              injection h with h
              subst h
              simp [ih hxs]

lemma mapME_ok_get {α β : Type} {f : α → Except String β} :
    ∀ {l : List α} {ys : List β}, mapME f l = .ok ys →
      ∀ (i : Nat) (h1 : i < l.length) (h2 : i < ys.length),
        f (l.get ⟨i, h1⟩) = .ok (ys.get ⟨i, h2⟩) := by
  intro l
  induction l with
  | nil => intro ys h i h1 h2; cases h1
  | cons x xs ih =>
      intro ys h i h1 h2
      rw [mapME_cons] at h
      cases hx : f x with
      | error e => rw [hx] at h; cases h
      | ok y =>
          rw [hx] at h
          cases hxs : mapME f xs with
          | error e => rw [hxs] at h; cases h
          | ok zs =>
              rw [hxs] at h
              injection h with h
              subst h
              cases i with
              | zero => exact hx
              | succ n => exact ih hxs n (Nat.lt_of_succ_lt_succ h1) (Nat.lt_of_succ_lt_succ h2)

lemma mapME_append {α β : Type} (f : α → Except String β) :
    ∀ {l₁ l₂ : List α} {ys₁ ys₂ : List β},
      mapME f l₁ = .ok ys₁ → mapME f l₂ = .ok ys₂ →
      mapME f (l₁ ++ l₂) = .ok (ys₁ ++ ys₂) := by
  intro l₁
  induction l₁ with
  | nil =>
      intro l₂ ys₁ ys₂ h1 h2
      injection h1 with h1
      subst h1
      simpa using h2
  | cons x xs ih =>
      intro l₂ ys₁ ys₂ h1 h2
      rw [mapME_cons] at h1
      cases hx : f x with
      | error e => rw [hx] at h1; cases h1
      | ok y =>
          rw [hx] at h1
          cases hxs : mapME f xs with
          | error e => rw [hxs] at h1; cases h1
          | ok zs =>
              rw [hxs] at h1
              injection h1 with h1
              subst h1
              rw [List.cons_append, mapME_cons, hx, ih hxs h2]
              rfl

/-- Decomposition of a successful per-meal pass: the flattened item pass
succeeds with the concatenation of the per-meal item results, and each
per-meal total is the fold of its own results. -/
lemma mapME_meals_join (st : MacroEngineState) :
    ∀ (meals : List (List MealItemInput)) (pm : List MacroProfile),
      mapME (computeMealMacros st) meals = .ok pm →
      ∃ MS : List (List MacroProfile),
        mapME (fun item => computeItemMacros st item.foodId item.portion) meals.flatten
          = .ok MS.flatten ∧
        pm = MS.map (fun l => List.foldl addAcc zeroMacros l) := by
  intro meals
  induction meals with
  | nil =>
      intro pm h
      injection h with h
      subst h
      exact ⟨[], rfl, rfl⟩
  | cons meal rest ih =>
      intro pm h
      rw [mapME_cons] at h
      cases hx : computeMealMacros st meal with
      | error e => rw [hx] at h; cases h
      | ok p0 =>
          rw [hx] at h
          cases hrest : mapME (computeMealMacros st) rest with
          | error e => rw [hrest] at h; cases h
          | ok prest =>
              rw [hrest] at h
              injection h with h
              subst h
              unfold computeMealMacros at hx
              cases hmm : mapME (fun item => computeItemMacros st item.foodId item.portion) meal with
              | error e => rw [hmm] at hx; cases hx
              | ok ms0 =>
                  rw [hmm] at hx
                  injection hx with hx
                  subst hx
                  rcases ih prest hrest with ⟨MS, hMS, hpm⟩
                  refine ⟨ms0 :: MS, ?_, ?_⟩
                  · rw [List.flatten_cons]
                    exact mapME_append _ hmm hMS
                  · rw [List.map_cons, ← hpm]

/-- C5: additivity.  Whenever `computeDayMacros` succeeds, its `total`
equals `computeMealMacros` of the flattened item list (exactly, in the ℚ
embedding of the float arithmetic), and `perMeal` is exactly
`computeMealMacros` of each meal. -/
theorem computeDayMacros_additivity (st : MacroEngineState)
    (meals : List (List MealItemInput)) (d : DayMacros)
    (h : computeDayMacros st meals = .ok d) :
    computeMealMacros st meals.flatten = .ok d.total ∧
    d.perMeal.length = meals.length ∧
    ∀ (i : Nat) (h1 : i < meals.length) (h2 : i < d.perMeal.length),
      computeMealMacros st (meals.get ⟨i, h1⟩) = .ok (d.perMeal.get ⟨i, h2⟩) := by
  unfold computeDayMacros at h
  cases hpm : mapME (computeMealMacros st) meals with
  | error e => rw [hpm] at h; cases h
  | ok pm =>
      rw [hpm] at h
      simp only [Except.map] at h
      injection h with h
      subst h
      refine ⟨?_, mapME_ok_length hpm, ?_⟩
      · rcases mapME_meals_join st meals pm hpm with ⟨MS, hMS, hpmEq⟩
        unfold computeMealMacros
        rw [hMS]
        simp only [Except.map, Except.ok.injEq]
        rw [foldl_addAcc_join, ← hpmEq]
      · intro i h1 h2
        exact mapME_ok_get hpm i h1 h2

/-! ## Concrete witness inputs -/

section ConcreteEvaluation

set_option allowUnsafeReducibility true
attribute [local semireducible] Rat.add Rat.mul Rat.inv Rat.sub

/-- C6: witness at `foodA`, unit g, quantity 50 doubled to 100. -/
theorem computeItemMacros_linear_witness :
    computeItemMacros stA "a" { quantity := 2 * 50, unit := "g" } =
      .ok { caloriesKcal := 2 * mW.caloriesKcal, proteinG := 2 * mW.proteinG,
            carbsG := 2 * mW.carbsG, fatG := 2 * mW.fatG,
            fiberG := mW.fiberG.map (fun f => 2 * f),
            sugarG := mW.sugarG.map (fun s => 2 * s) } :=
  computeItemMacros_linear stA "a" 50 "g" mW (by decide)

/-- C10: witness: a 200 kcal target against a 100 kcal/100 g candidate
yields the clamped, rounded portion, whose quantity is at least 1. -/
theorem calculateOptimalPortion_witness :
    calculateOptimalPortion stA foodB targetW =
      .ok { quantity := roundTo1 (max 1 (100 * (targetW.caloriesKcal / baseW.caloriesKcal))),
            unit := "g" } ∧
    1 ≤ roundTo1 (max 1 (100 * (targetW.caloriesKcal / baseW.caloriesKcal))) := by
  have h := calculateOptimalPortion_total_clamped stA foodB targetW baseW (by decide)
  refine ⟨h.2.1 (by decide), ?_⟩
  exact h.2.2 _ (h.2.1 (by decide))

/-- C1: witness at a concrete engine run with default constraints. -/
theorem findSubstitutions_tolerance_witness :
    (calculateMacroDistance w1Res.originalMacros w1Cand.macros).overallScore ≤
      ({} : SubstitutionConstraints).macroTolerancePercent.getD 5 :=
  findSubstitutions_tolerance subStA "a" wPortion {} none w1Res w1Cand
    (by decide) (by decide)

/-- C2: witness — with a "nut" allergy declared, the returned candidate's
lower-cased name does not contain "nut" (the Peanut Butter food was
dropped). -/
theorem findSubstitutions_allergyExclusion_witness :
    strIncludes (strLower w2Cand.food.name) (strLower "nut") = false :=
  findSubstitutions_allergyExclusion subStC2 "a" wPortion constraintsC2 none w2Res w2Cand
    { allergies := some ["nut"] } "nut"
    (by decide) (by decide) (by decide) (Or.inl (by decide))

/-- C7: witness — a returned candidate carrying the nonzero confidence 0.8
satisfies the default effective minimum 0.7. -/
theorem findSubstitutions_confidence_witness :
    ({} : SubstitutionConstraints).minConfidence.getD (7/10) ≤ (4/5 : ℚ) :=
  findSubstitutions_confidence subStC7w "a" wPortion {} none w7Res w7Cand (4/5)
    (by decide) (by decide) (by decide) (by decide) (by decide)

/-- C7: counterexample.  Under the default `minConfidence` of 0.7, a
candidate whose metadata carries `confidence: 0` is returned by
`findSubstitutions` (a zero — like an absent — confidence is falsy, so the
confidence gate is skipped), and 0 is below 0.7: the claim that every
returned candidate has confidence at least the effective `minConfidence` is
false. -/
theorem findSubstitutions_confidence_cex :
    ((findSubstitutions subStC7 "a" wPortion {} none).toOption.map
        (fun r => r.candidates.map (fun cd => confOf cd.food))) = some [some 0] ∧
    ¬ (({} : SubstitutionConstraints).minConfidence.getD (7/10) ≤ 0) := by
  constructor
  · decide
  · decide

/-- C8: counterexample.  At a concrete candidate the component scores are
100 / 80 / 95 / 85 and the code's `totalScore` is 93.5 — the weighted sum
itself — not 100 times the weighted sum (which would be 9350): the claimed
`totalScore = 100·(0.5·macroScore + 0.2·preferenceScore +
0.2·availabilityScore + 0.1·costScore)` is false. -/
theorem calculateScore_formula_cex :
    (calculateScore cexOrigFood cexCandFood cexMd none).macroScore = 100 ∧
    (calculateScore cexOrigFood cexCandFood cexMd none).preferenceScore = 80 ∧
    (calculateScore cexOrigFood cexCandFood cexMd none).availabilityScore = 95 ∧
    (calculateScore cexOrigFood cexCandFood cexMd none).costScore = 85 ∧
    (calculateScore cexOrigFood cexCandFood cexMd none).totalScore = 187/2 ∧
    ¬ ((calculateScore cexOrigFood cexCandFood cexMd none).totalScore
        = 100 * ((1/2) * (calculateScore cexOrigFood cexCandFood cexMd none).macroScore
          + (1/5) * (calculateScore cexOrigFood cexCandFood cexMd none).preferenceScore
          + (1/5) * (calculateScore cexOrigFood cexCandFood cexMd none).availabilityScore
          + (1/10) * (calculateScore cexOrigFood cexCandFood cexMd none).costScore)) := by
  refine ⟨by decide, by decide, by decide, by decide, by decide, by decide⟩

/-- C5: witness at a concrete two-meal day. -/
theorem computeDayMacros_additivity_witness :
    computeMealMacros stA mealsW.flatten = .ok dW.total ∧
    dW.perMeal.length = mealsW.length := by
  have h := computeDayMacros_additivity stA mealsW dW (by decide)
  exact ⟨h.1, h.2.1⟩

end ConcreteEvaluation

end NutritionApp
